import Mathlib

/-!
# Verification of the deepwiki-open background job engine

A shallow embedding, in Lean 4, of the core data model and operations of the
deepwiki-open wiki-generation backend:

* `api/background/models.py` — the `JobStatus` / `PageStatus` enums;
* `api/background/job_manager.py` — job creation, status updates, counters,
  and the conditional-UPDATE state-machine operations;
* `api/background/worker.py` — the phase-2 sequential page-processing loop,
  page retry/promotion logic, final status computation, Mermaid diagram
  validation and fixing, and wiki-cache persistence;
* `api/background/token_tracker.py` — the per-job token statistics row;
* `api/azure_ha_client.py` — the multi-endpoint failover pool;
* `api/services/rate_limiter.py` — the per-user sliding-window rate limiter.

Database tables are modelled as lists of row structures; SQL `UPDATE`s become
list maps guarded by the same predicates, and rowcounts become lengths of the
matched sublists.  Nondeterministic effects (LLM responses, timeouts) are
passed in as explicit oracle parameters.
-/

namespace DeepWiki

/-! ## Enums from `api/background/models.py` -/

/-- `JobStatus` from `api/background/models.py` (lines 10-19).  These are the
only members of the Python enum; there is no `PARTIALLY_COMPLETED` member. -/
inductive JobStatus where
  | pending
  | preparingEmbeddings
  | generatingStructure
  | generatingPages
  | paused
  | completed
  | failed
  | cancelled
deriving DecidableEq, Repr

/-- The `.value` string of each `JobStatus` member. -/
def JobStatus.value : JobStatus → String
  | .pending => "pending"
  | .preparingEmbeddings => "preparing_embeddings"
  | .generatingStructure => "generating_structure"
  | .generatingPages => "generating_pages"
  | .paused => "paused"
  | .completed => "completed"
  | .failed => "failed"
  | .cancelled => "cancelled"

/-- Python attribute lookup on the `JobStatus` enum class: `JobStatus.<name>`
succeeds exactly for the eight members declared in `models.py`; any other
attribute name raises `AttributeError`, modelled as `none`. -/
def jobStatusAttr : String → Option JobStatus
  | "PENDING" => some .pending
  | "PREPARING_EMBEDDINGS" => some .preparingEmbeddings
  | "GENERATING_STRUCTURE" => some .generatingStructure
  | "GENERATING_PAGES" => some .generatingPages
  | "PAUSED" => some .paused
  | "COMPLETED" => some .completed
  | "FAILED" => some .failed
  | "CANCELLED" => some .cancelled
  | _ => none

/-- `PageStatus` from `api/background/models.py` (lines 22-28). -/
inductive PageStatus where
  | pending
  | inProgress
  | completed
  | failed
  | permanentFailed
deriving DecidableEq, Repr

/-! ## Job rows and `JobManager.create_job` / `cancel_job`
(`api/background/job_manager.py`) -/

/-- The fields of a `jobs` row consulted by `create_job` and the
state-machine operations. -/
structure Job where
  id : String
  owner : String
  repo : String
  language : String
  provider : String
  model : Option String
  status : JobStatus
  currentPhase : Nat
  progressPercent : ℚ
deriving DecidableEq, Repr

/-- SQL match `(model = ? OR (model IS NULL AND ? IS NULL))` from the
duplicate-check query in `create_job`: two bound occurrences of the request
model.  Under SQL three-valued logic `NULL = x` is never true, so the
disjunction matches exactly when both are equal non-NULL strings or both are
NULL. -/
def sqlModelMatch (rowModel reqModel : Option String) : Bool :=
  match rowModel, reqModel with
  | some a, some b => a == b
  | none, none => true
  | _, _ => false

/-- `status NOT IN (completed, failed, cancelled)` — the terminal statuses
excluded by the duplicate-active-job check in `create_job`. -/
def isTerminalStatus (s : JobStatus) : Bool :=
  s == .completed || s == .failed || s == .cancelled

/-- The fields of a `CreateJobRequest` consulted by `create_job`. -/
structure CreateJobRequest where
  owner : String
  repo : String
  language : String
  provider : String
  model : Option String
deriving DecidableEq, Repr

/-- The `WHERE` predicate of the duplicate-active-job check in
`JobManager.create_job` (job_manager.py lines 29-37). -/
def isActiveDup (req : CreateJobRequest) (j : Job) : Bool :=
  j.owner == req.owner && j.repo == req.repo && j.language == req.language &&
  j.provider == req.provider && sqlModelMatch j.model req.model &&
  !isTerminalStatus j.status

/-- The row inserted by `create_job` when no active duplicate exists
(job_manager.py lines 44-63): `status = pending`, `current_phase = 0`,
`progress_percent = 0.0`. -/
def mkNewJob (jobId : String) (req : CreateJobRequest) : Job :=
  { id := jobId, owner := req.owner, repo := req.repo,
    language := req.language, provider := req.provider, model := req.model,
    status := .pending, currentPhase := 0, progressPercent := 0 }

/-- `JobManager.create_job` (job_manager.py lines 22-66) over a `jobs` table:
`SELECT ... LIMIT`-like `fetch_one` returns the first matching row; if an
active duplicate exists its `id` is returned and nothing is inserted,
otherwise a fresh row is inserted.  `jobId` stands for the generated
`uuid.uuid4()` string. -/
def createJob (jobId : String) (jobs : List Job) (req : CreateJobRequest) :
    String × List Job :=
  match jobs.find? (isActiveDup req) with
  | some existing => (existing.id, jobs)
  | none => (jobId, jobs ++ [mkNewJob jobId req])

/-- The effect of the `cancel_job` UPDATE on a single row: set
`status = cancelled` when the row matches
`id = ? AND status NOT IN (completed, failed, cancelled)`. -/
def cancelRow (jobId : String) (j : Job) : Job :=
  if j.id == jobId && !isTerminalStatus j.status then
    { j with status := .cancelled }
  else j

/-- `JobManager.cancel_job` (job_manager.py lines 404-416): a conditional
`UPDATE jobs SET status = cancelled WHERE id = ? AND status NOT IN
(completed, failed, cancelled)`.  Returns the updated table together with
`rowcount > 0`. -/
def cancelJob (jobs : List Job) (jobId : String) : List Job × Bool :=
  (jobs.map (cancelRow jobId),
   (jobs.filter fun j => j.id == jobId && !isTerminalStatus j.status).length > 0)

/-- Number of rows matched by the `cancel_job` UPDATE precondition. -/
def cancelMatchCount (jobs : List Job) (jobId : String) : Nat :=
  (jobs.filter (fun j => j.id == jobId && !isTerminalStatus j.status)).length

/-! ## Rate limiter (`api/services/rate_limiter.py`)

The `rate_limit_tracker` table is a list of `(user_id, request_timestamp)`
rows; timestamps are integer milliseconds.  The table schema itself lives in
`api/core/schema.sql`, which is not part of the sources; following the spec
("per-user sliding 60 s window over a timestamp table") the table is modelled
as a plain timestamp table whose inserts always succeed, so the
rare-collision `except` branch of `check_rate_limit` is never taken. -/

/-- One row of `rate_limit_tracker`. -/
structure RateRow where
  userId : String
  requestTimestamp : Int
deriving DecidableEq, Repr

/-- `RateLimiter.WINDOW_MS = 60 * 1000`. -/
def WINDOW_MS : Int := 60 * 1000

/-- `RateLimiter.check_rate_limit(user_id, limit)` (rate_limiter.py lines
12-69) acting on the `rate_limit_tracker` table.  `nowMs` models
`int(time.time() * 1000)`.  Returns the admission decision together with the
table after the call. -/
def checkRateLimit (userId : String) (limit : Option Int) (nowMs : Int)
    (table : List RateRow) : Bool × List RateRow :=
  match limit with
  | none => (true, table)
  | some l =>
    if l ≤ 0 then (true, table)
    else
      let windowStart := nowMs - WINDOW_MS
      -- DELETE FROM rate_limit_tracker WHERE user_id = ? AND request_timestamp < ?
      let pruned := table.filter fun r =>
        !(r.userId == userId && r.requestTimestamp < windowStart)
      -- SELECT COUNT(*) ... WHERE user_id = ?
      let currentCount := (pruned.filter (fun r => r.userId == userId)).length
      if (l : Int) ≤ currentCount then (false, pruned)
      else
        -- INSERT INTO rate_limit_tracker (user_id, request_timestamp) VALUES (?, ?)
        (true, pruned ++ [⟨userId, nowMs⟩])

/-! ## Azure HA failover pool (`api/azure_ha_client.py`)

Wall-clock readings of `time.time()` are modelled as an explicit integer
`now` parameter. -/

/-- `AzureEndpoint` (azure_ha_client.py lines 33-47), restricted to the
fields the selection and error-handling logic reads. -/
structure AzureEndpoint where
  name : String
  rateLimitUntil : Option Int
  failureCount : Nat
deriving DecidableEq, Repr

/-- `AzureEndpoint.is_rate_limited` (lines 49-55): false when
`rate_limit_until is None`, otherwise `time.time() < rate_limit_until`. -/
def AzureEndpoint.isRateLimited (now : Int) (ep : AzureEndpoint) : Bool :=
  match ep.rateLimitUntil with
  | none => false
  | some t => now < t

/-- `AzureEndpoint.mark_rate_limited(retry_after_seconds)` (lines 57-61):
`rate_limit_until = time.time() + retry_after_seconds`. -/
def AzureEndpoint.markRateLimited (now : Int) (retryAfter : Int)
    (ep : AzureEndpoint) : AzureEndpoint :=
  { ep with rateLimitUntil := some (now + retryAfter) }

/-- `AzureEndpoint.increment_failure` (lines 69-72). -/
def AzureEndpoint.incrementFailure (ep : AzureEndpoint) : AzureEndpoint :=
  { ep with failureCount := ep.failureCount + 1 }

/-- The endpoint pool state of `AzureHAClient`: the `endpoints` list and
`current_endpoint_index`. -/
structure HAState where
  endpoints : List AzureEndpoint
  currentEndpointIndex : Nat
deriving DecidableEq, Repr

/-- `get_available_endpoints` (lines 250-252). -/
def getAvailableEndpoints (now : Int) (st : HAState) : List AzureEndpoint :=
  st.endpoints.filter fun ep => !ep.isRateLimited now

/-- The scan of `select_next_available_endpoint` (lines 265-269): for
`i = 0, 1, ...` try index `(start + 1 + i) % n` and return the first whose
endpoint is not rate limited.  `count` counts the remaining iterations of
`for i in range(len(self.endpoints))`. -/
def findAvailableIdx (eps : List AzureEndpoint) (now : Int) (start : Nat) :
    Nat → Nat → Option Nat
  | 0, _ => none
  | cnt + 1, i =>
    match eps[(start + 1 + i) % eps.length]? with
    | some ep =>
      if ep.isRateLimited now then findAvailableIdx eps now start cnt (i + 1)
      else some ((start + 1 + i) % eps.length)
    | none => none

/-- `AzureHAClient.select_next_available_endpoint` (lines 254-286).  Client
re-initialisation has no effect on the pool state and is omitted; the result
is the updated state plus the returned boolean. -/
def selectNextAvailableEndpoint (now : Int) (st : HAState) : HAState × Bool :=
  if (getAvailableEndpoints now st).isEmpty then (st, false)
  else
    match findAvailableIdx st.endpoints now st.currentEndpointIndex
        st.endpoints.length 0 with
    | some idx => ({ st with currentEndpointIndex := idx }, true)
    | none => (st, false)

/-- Replace the endpoint at index `i`. -/
def setEndpoint (st : HAState) (i : Nat) (ep : AzureEndpoint) : HAState :=
  { st with endpoints := st.endpoints.set i ep }

/-- `AzureHAClient._handle_api_error` (lines 312-321): increment the current
endpoint's failure count; once it reaches 3, put the endpoint in a 90 s
cooldown and advance the selection. -/
def handleApiError (now : Int) (st : HAState) : HAState :=
  match st.endpoints[st.currentEndpointIndex]? with
  | none => st
  | some cur =>
    let cur := cur.incrementFailure
    if 3 ≤ cur.failureCount then
      let cur := cur.markRateLimited now 90
      let st := setEndpoint st st.currentEndpointIndex cur
      (selectNextAvailableEndpoint now st).1
    else
      setEndpoint st st.currentEndpointIndex cur

/-! ## Token statistics (`api/background/token_tracker.py`) -/

/-- One `job_token_stats` row. -/
structure TokenStatsRow where
  chunkingTotalTokens : Nat
  chunkingTotalChunks : Nat
  providerPromptTokens : Nat
  providerCompletionTokens : Nat
  providerTotalTokens : Nat
deriving DecidableEq, Repr

/-- `TokenTracker.update_provider_tokens` (token_tracker.py lines 76-112):
atomic increments of the three provider counters.  Declared here because the
tracker exposes it; whether the worker calls it is settled by the theorems
below. -/
def updateProviderTokens (t : TokenStatsRow) (promptTokens completionTokens : Nat) :
    TokenStatsRow :=
  { t with
    providerPromptTokens := t.providerPromptTokens + promptTokens,
    providerCompletionTokens := t.providerCompletionTokens + completionTokens,
    providerTotalTokens := t.providerTotalTokens + (promptTokens + completionTokens) }

/-! ## Worker phase 2 (`api/background/worker.py`)

The sequential page-processing loop (`PAGE_CONCURRENCY = 1`, the default) is
modelled as a fuel-indexed recursion.  The LLM is an oracle: each page
attempt is assigned an outcome by the environment. -/

/-- `MAX_PAGE_RETRIES = 3` (worker.py line 33). -/
def MAX_PAGE_RETRIES : Nat := 3

/-- The fields of a `job_pages` row the phase-2 loop reads and writes. -/
structure PageRow where
  id : Nat
  status : PageStatus
  retryCount : Nat
  lastError : Option String
  content : Option String
  tokensUsed : Nat
deriving DecidableEq, Repr

/-- The `jobs`-row counters touched during phase 2, plus the job's
`job_token_stats` row. -/
structure JobCounters where
  totalPages : Nat
  completedPages : Nat
  failedPages : Nat
  totalTokensUsed : Nat
  tokenStats : TokenStatsRow
deriving DecidableEq, Repr

/-- The effect of the `update_page_status` UPDATE on a single row (matched
by `WHERE id = ?`): set the status, set `content`/`tokens_used` when given,
and — exactly when an `error` is given — record `last_error` and increment
`retry_count`. -/
def applyPageUpdate (pageId : Nat) (status : PageStatus)
    (content : Option String) (tokens : Option Nat) (error : Option String)
    (p : PageRow) : PageRow :=
  if p.id == pageId then
    let p1 := { p with status := status }
    let p2 := match content with
      | some c => { p1 with content := some c }
      | none => p1
    let p3 := match tokens with
      | some t => { p2 with tokensUsed := t }
      | none => p2
    match error with
    | some e => { p3 with lastError := some e, retryCount := p3.retryCount + 1 }
    | none => p3
  else p

/-- `JobManager.update_page_status` (job_manager.py lines 205-247) over the
`job_pages` table.  The `time_ms` column (`generation_time_ms`) and the
`started_at`/`completed_at` timestamps are not represented: no property
below reads them. -/
def updatePageStatus (pages : List PageRow) (pageId : Nat) (status : PageStatus)
    (content : Option String) (tokens : Option Nat) (error : Option String) :
    List PageRow :=
  pages.map (applyPageUpdate pageId status content tokens error)

/-- `JobManager.increment_job_page_count` (job_manager.py lines 249-275):
atomic counter increments on the `jobs` row. -/
def incrementJobPageCount (c : JobCounters) (completed failed : Bool)
    (tokens : Nat) : JobCounters :=
  let c := if completed then { c with completedPages := c.completedPages + 1 } else c
  let c := if failed then { c with failedPages := c.failedPages + 1 } else c
  if tokens > 0 then { c with totalTokensUsed := c.totalTokensUsed + tokens } else c

/-- `JobManager.get_next_pending_page` (job_manager.py lines 183-192): first
page (in creation order) with status `pending`. -/
def getNextPendingPage (pages : List PageRow) : Option PageRow :=
  pages.find? fun p => p.status == .pending

/-- `JobManager.get_failed_pages` (job_manager.py lines 194-203): all pages
with status `failed`, in creation order. -/
def getFailedPages (pages : List PageRow) : List PageRow :=
  pages.filter fun p => p.status == .failed

/-- Token counting on the success path of `_generate_page_content`
(worker.py lines 649-661): `tiktoken` `cl100k_base` when importable, else
`len(content) // 4`.  The encoder, when present, is an opaque deterministic
function of the text. -/
def countTokens (encoder : Option (String → Nat)) (text : String) : Nat :=
  match encoder with
  | some enc => enc text
  | none => text.length / 4

/-- Environment-chosen outcome of one page generation attempt:
the `_call_llm`/validation pipeline succeeds with final content, raises an
exception caught inside `_generate_page_content`, or the surrounding
`asyncio.wait_for(..., timeout=600)` in the processing loop times out. -/
inductive AttemptOutcome where
  | success (content : String)
  | genFailure (errorDetail : String)
  | pageTimeout
deriving Repr

/-- Mutable state of one job during phase 2. -/
structure WorkerState where
  pages : List PageRow
  counters : JobCounters
deriving DecidableEq, Repr

/-- The success tail of `_generate_page_content` (worker.py lines 643-676):
mark the page completed with its content, count tokens on the content only,
add them to the job counters, and store the page stats.  Mirrors the two
`update_page_status` calls and the `increment_job_page_count` call; nothing
touches `job_token_stats`. -/
def generatePageSuccess (encoder : Option (String → Nat)) (st : WorkerState)
    (pageId : Nat) (content : String) : WorkerState :=
  let pages := updatePageStatus st.pages pageId .completed (some content) none none
  let tokens := countTokens encoder content
  let counters := incrementJobPageCount st.counters true false tokens
  let pages := updatePageStatus pages pageId .completed none (some tokens) none
  { pages := pages, counters := counters }

/-- The `except` tail of `_generate_page_content` (worker.py lines 678-693):
with the *fetched* page row's `retry_count`, promote to `permanent_failed`
when `retry_count >= MAX_PAGE_RETRIES - 1`, else mark `failed`; either way
the error is recorded (which also increments `retry_count`). -/
def generatePageFailure (st : WorkerState) (page : PageRow)
    (errorDetail : String) : WorkerState :=
  let truncated := String.mk (errorDetail.toList.take 1000)
  if MAX_PAGE_RETRIES - 1 ≤ page.retryCount then
    { st with pages := (updatePageStatus st.pages page.id .permanentFailed
        none none (some truncated)) }
  else
    { st with pages := (updatePageStatus st.pages page.id .failed
        none none (some truncated)) }

/-- One iteration body of `_process_pages_sequentially` (worker.py lines
437-472) for the selected `page`: mark it in-progress, run
`_generate_page_content` under the page-level timeout, and update the job
counters (`failed_pages` is incremented here on every unsuccessful attempt;
`completed_pages` is incremented inside the success path). -/
def processOnePage (encoder : Option (String → Nat)) (st : WorkerState)
    (page : PageRow) (outcome : AttemptOutcome) : WorkerState × Bool :=
  let st := { st with
    pages := updatePageStatus st.pages page.id .inProgress none none none }
  match outcome with
  | .success content => (generatePageSuccess encoder st page.id content, true)
  | .genFailure err =>
    let st := generatePageFailure st page err
    ({ st with counters := incrementJobPageCount st.counters false true 0 }, false)
  | .pageTimeout =>
    -- `asyncio.TimeoutError` branch (worker.py lines 456-461): the page is
    -- marked failed with the timeout error, with no retry-limit check.
    let st := { st with pages := (updatePageStatus st.pages page.id .failed
        none none (some "Page generation timed out (exceeded 10 minutes)")) }
    ({ st with counters := incrementJobPageCount st.counters false true 0 }, false)

/-- Page selection at the top of each loop iteration (worker.py lines
425-435): the next pending page, else the first failed page with
`retry_count < MAX_PAGE_RETRIES`, else none (the loop breaks). -/
def selectPage (pages : List PageRow) : Option PageRow :=
  match getNextPendingPage pages with
  | some p => some p
  | none =>
    ((getFailedPages pages).filter fun p =>
      p.retryCount < MAX_PAGE_RETRIES).head?

/-- `_process_pages_sequentially` (worker.py lines 414-472), fuel-indexed.
`outcomes n` is the environment's outcome for the n-th attempt. -/
def seqLoop (encoder : Option (String → Nat)) (outcomes : Nat → AttemptOutcome) :
    Nat → Nat → WorkerState → WorkerState
  | 0, _, st => st
  | fuel + 1, attempt, st =>
    match selectPage st.pages with
    | none => st
    | some page =>
      let (st, _) := processOnePage encoder st page (outcomes attempt)
      seqLoop encoder outcomes fuel (attempt + 1) st

/-- Run the phase-2 loop from the start. -/
def seqRun (encoder : Option (String → Nat)) (outcomes : Nat → AttemptOutcome)
    (fuel : Nat) (st : WorkerState) : WorkerState :=
  seqLoop encoder outcomes fuel 0 st

/-! ## Final status computation (`WikiGenerationWorker._process_job`,
worker.py lines 208-255) -/

/-- The final-status computation at the end of `_process_job` (worker.py
lines 214-230): when `failed_pages > 0` the code evaluates
`JobStatus.PARTIALLY_COMPLETED` — an attribute lookup on the enum class —
and otherwise `JobStatus.COMPLETED`; it then persists the final status with
`progress=100.0`.  The lookup is `jobStatusAttr`; `none` models the
`AttributeError` raised when the member does not exist. -/
def computeFinalStatus (failedPages : Nat) : Option (JobStatus × ℚ) :=
  if failedPages > 0 then
    (jobStatusAttr "PARTIALLY_COMPLETED").map fun s => (s, 100)
  else
    (jobStatusAttr "COMPLETED").map fun s => (s, 100)

/-- The persisted outcome of the `_process_job` epilogue: on a successful
final-status computation the job is updated to that status with progress
100 and a final progress event carries the same status; an exception
instead reaches the `except` handler (worker.py lines 247-255), which marks
the job `failed` and leaves the progress untouched (`none`). -/
def processJobEpilogue (failedPages : Nat) : JobStatus × Option ℚ :=
  match computeFinalStatus failedPages with
  | some (s, p) => (s, some p)
  | none => (.failed, none)

/-! ## Mermaid diagram validation and fixing (worker.py lines 778-922)

Python strings are modelled as `List Char`; positions are character
indices, as in CPython `str`. -/

/-- Python `str.strip()` whitespace set (`\s` of the `re` module). -/
def isPySpace (c : Char) : Bool :=
  c == ' ' || c == '\t' || c == '\n' || c == '\r' || c == '\x0b' || c == '\x0c'

/-- Python `str.strip()`. -/
def pyStrip (s : List Char) : List Char :=
  ((s.dropWhile isPySpace).reverse.dropWhile isPySpace).reverse

/-- Python `str.split('\n')` (always at least one part). -/
def splitOnNl : List Char → List (List Char)
  | [] => [[]]
  | c :: cs =>
    let r := splitOnNl cs
    if c = '\n' then [] :: r
    else
      match r with
      | h :: t => (c :: h) :: t
      | [] => [[c]]

/-- Index of the first occurrence of `pat` in `s`, if any. -/
def findSubIdx (pat : List Char) : List Char → Option Nat
  | [] => if pat.isPrefixOf [] then some 0 else none
  | c :: t =>
    if pat.isPrefixOf (c :: t) then some 0
    else (findSubIdx pat t).map (· + 1)

/-- Python `pat in s`. -/
def hasSub (pat s : List Char) : Bool := (findSubIdx pat s).isSome

/-- Python `s.split(pat)` for a non-empty `pat` (fuel-indexed helper). -/
def splitSubAux (pat : List Char) : Nat → List Char → List (List Char)
  | 0, s => [s]
  | fuel + 1, s =>
    match findSubIdx pat s with
    | none => [s]
    | some i => s.take i :: splitSubAux pat fuel (s.drop (i + pat.length))

/-- Python `s.split(pat)`. -/
def splitSub (pat s : List Char) : List (List Char) :=
  splitSubAux pat (s.length + 1) s

/-- The `valid_types` list of `_validate_mermaid_syntax` (worker.py lines
801-806). -/
def validTypes : List String :=
  ["graph TD", "graph LR", "graph TB", "graph RL", "graph BT",
   "sequenceDiagram", "classDiagram", "stateDiagram", "stateDiagram-v2",
   "erDiagram", "journey", "gantt", "pie", "gitGraph", "flowchart TD",
   "flowchart LR", "flowchart TB", "flowchart RL", "flowchart BT"]

/-- The `arrow_patterns` list (worker.py line 830). -/
def arrowPatterns : List String :=
  ["-->", "-.->", "==>", "---", "-.-.", "==="]

/-- The arrow sub-check of `_validate_mermaid_syntax` (worker.py lines
830-838): the first pattern occurring exactly once in the (stripped) line
with an empty side yields the error. -/
def arrowCheck (pats : List String) (line : List Char) (i : Nat) :
    Option String :=
  match pats with
  | [] => none
  | a :: rest =>
    if hasSub a.toList line then
      match splitSub a.toList line with
      | [l, r] =>
        if (pyStrip l).isEmpty || (pyStrip r).isEmpty then
          some ("Invalid arrow syntax on line " ++ toString i ++ ": missing node")
        else arrowCheck rest line i
      | _ => arrowCheck rest line i
    else arrowCheck rest line i

/-- The per-line loop of `_validate_mermaid_syntax` (worker.py lines
812-838), with `i` the 1-based line number of the head of `rest`. -/
def checkMermaidLines (graphMode : Bool) : List (List Char) → Nat → Option String
  | [], _ => none
  | raw :: rest, i =>
    let line := pyStrip raw
    if line.isEmpty || "%%".toList.isPrefixOf line then
      checkMermaidLines graphMode rest (i + 1)
    else if line.count '[' ≠ line.count ']' then
      some ("Unmatched square brackets on line " ++ toString i ++
        ": \x27" ++ String.mk line ++ "\x27")
    else if line.count '(' ≠ line.count ')' then
      some ("Unmatched parentheses on line " ++ toString i ++
        ": \x27" ++ String.mk line ++ "\x27")
    else if line.count '\x7b' ≠ line.count '\x7d' then
      some ("Unmatched curly braces on line " ++ toString i ++
        ": \x27" ++ String.mk line ++ "\x27")
    else if graphMode &&
        (hasSub "--".toList line || hasSub "==".toList line ||
         hasSub "-.".toList line) then
      match arrowCheck arrowPatterns line i with
      | some e => some e
      | none => checkMermaidLines graphMode rest (i + 1)
    else
      checkMermaidLines graphMode rest (i + 1)

/-- `_validate_mermaid_syntax` (worker.py lines 791-844): `none` means the
diagram is valid, `some msg` carries the error message returned with
`False`. -/
def validateMermaid (diagramCode : List Char) : Option String :=
  let lines := splitOnNl (pyStrip diagramCode)
  match lines with
  | [] => some "Empty diagram"
  | firstRaw :: _ =>
    let firstLine := pyStrip firstRaw
    if !(validTypes.any fun t => t.toList.isPrefixOf firstLine) then
      some ("Invalid diagram type. First line: \x27" ++
        String.mk firstLine ++ "\x27")
    else
      let graphMode := "graph".toList.isPrefixOf firstLine ||
        "flowchart".toList.isPrefixOf firstLine
      checkMermaidLines graphMode lines 1

/-- `_extract_mermaid_diagrams` (worker.py lines 778-789): the matches of
`` ```mermaid\s*\n?(.*?)\n?``` `` (DOTALL), scanned left to right and
non-overlapping; the stored triple is `(group(1).strip(), start, end)` and
empty stripped groups are skipped.  For the lazy group the match closes at
the first following ```` ``` ````, with the optional preceding newline
absorbed; since the group is then stripped, the stored code equals the
stripped text between the opener and that fence. -/
def extractMermaidAux (pat3 : List Char) :
    Nat → List Char → Nat → List (List Char × Nat × Nat)
  | 0, _, _ => []
  | fuel + 1, s, base =>
    match findSubIdx ("```mermaid".toList) s with
    | none => []
    | some i =>
      let rest := s.drop (i + 10)
      match findSubIdx pat3 rest with
      | none => []
      | some j =>
        let code := pyStrip (rest.take j)
        let startPos := base + i
        let endPos := base + i + 10 + j + 3
        let tail := extractMermaidAux pat3 fuel (rest.drop (j + 3)) endPos
        if code.isEmpty then tail else (code, startPos, endPos) :: tail

/-- `_extract_mermaid_diagrams(markdown_content)`. -/
def extractMermaidDiagrams (s : List Char) : List (List Char × Nat × Nat) :=
  extractMermaidAux ("```".toList) (s.length + 1) s 0

/-- `fixed_content[:start_pos] + replacement + fixed_content[end_pos:]`. -/
def spliceList (s : List Char) (startPos endPos : Nat) (rep : List Char) :
    List Char :=
  s.take startPos ++ rep ++ s.drop endPos

/-- The fix prompt of `_validate_and_fix_mermaid_diagrams` (worker.py lines
866-879). -/
def mermaidFixPrompt (errorMsg : String) (diagramCode : String) : String :=
  "The following Mermaid diagram has a syntax error: " ++ errorMsg ++
  "\n\nPlease fix the diagram to make it valid Mermaid syntax. " ++
  "Return ONLY the corrected diagram code, without the ```mermaid wrapper." ++
  "\n\nREQUIREMENTS:\n- Use \x27graph TD\x27 for flowcharts (top-down orientation)" ++
  "\n- Ensure all brackets are matched: [], (), \x7b\x7d" ++
  "\n- Ensure proper arrow syntax: A --> B" ++
  "\n- Keep it concise and clear\n\nINVALID DIAGRAM:\n" ++ diagramCode ++
  "\n\nReturn ONLY the corrected Mermaid code, no explanations or markdown blocks."

/-- `re.sub(r'^```mermaid\s*\n?', '', f)` (worker.py line 885): drop a
leading ```` ```mermaid ```` marker and the whitespace run after it. -/
def remLeadWrapper (s : List Char) : List Char :=
  if ("```mermaid".toList).isPrefixOf s then
    (s.drop 10).dropWhile isPySpace
  else s

/-- Whether `l` is matched in full by `` ```\s* `` . -/
def ticksThenWs (l : List Char) : Bool :=
  ("```".toList).isPrefixOf l && (l.drop 3).all isPySpace

/-- Whether `l` is matched in full by `` \n?```\s* ``. -/
def tailWrapperMatch (l : List Char) : Bool :=
  (match l with
   | '\n' :: r => ticksThenWs r
   | _ => false) || ticksThenWs l

/-- `re.sub(r'\n?```\s*$', '', f)` (worker.py line 886): remove the leftmost
suffix matching the pattern, if any. -/
def remTrailWrapper : List Char → List Char
  | [] => []
  | c :: t =>
    if tailWrapperMatch (c :: t) then [] else c :: remTrailWrapper t

/-- The removal notice (worker.py lines 902 and 913). -/
def removalNote : List Char :=
  "\n\n> **Note:** A diagram was removed due to syntax errors.\n\n".toList

/-- One iteration of the reverse-order loop of
`_validate_and_fix_mermaid_diagrams` (worker.py lines 857-920).  `oracle`
models `_call_llm` as a total function of the prompt; the returned `Nat` is
the number of LLM fix round-trips performed (0 or 1). -/
def fixOneDiagram (oracle : String → String) (cur : List Char)
    (d : List Char × Nat × Nat) : List Char × Nat :=
  match validateMermaid d.1 with
  | none => (cur, 0)
  | some errorMsg =>
    let fixedRaw := oracle (mermaidFixPrompt errorMsg (String.mk d.1))
    let fixed := remTrailWrapper (remLeadWrapper (pyStrip fixedRaw.toList))
    if (validateMermaid fixed).isNone then
      (spliceList cur d.2.1 d.2.2
        ("```mermaid\n".toList ++ fixed ++ "\n```".toList), 1)
    else
      (spliceList cur d.2.1 d.2.2 removalNote, 1)

/-- Folding step of the diagram loop: thread the current content and
accumulate the LLM call count. -/
def mermaidFixStep (oracle : String → String) (acc : List Char × Nat)
    (d : List Char × Nat × Nat) : List Char × Nat :=
  let (c, n) := fixOneDiagram oracle acc.1 d
  (c, acc.2 + n)

/-- `_validate_and_fix_mermaid_diagrams` (worker.py lines 846-922),
returning the resulting content and the total number of LLM fix
round-trips. -/
def validateAndFixMermaidDiagrams (oracle : String → String)
    (content : List Char) : List Char × Nat :=
  (extractMermaidDiagrams content).reverse.foldl
    (mermaidFixStep oracle) (content, 0)

/-! ## Wiki cache persistence (`_save_to_wiki_cache`, worker.py lines
1578-1641) -/

/-- The fields of a `JobPageResponse` that `_save_to_wiki_cache` reads. -/
structure JobPageView where
  pageId : String
  title : String
  content : Option String
  filePaths : List String
  importance : String
  relatedPages : List String
  status : PageStatus
deriving DecidableEq, Repr

/-- One page entry of the cache artifact. -/
structure CachePage where
  id : String
  title : String
  content : String
  filePaths : List String
  importance : String
  relatedPages : List String
deriving DecidableEq, Repr

/-- The page dict built for a completed page (worker.py lines 1591-1598 and
1602-1610; `page.content or ""`). -/
def mkCachePage (p : JobPageView) : CachePage :=
  { id := p.pageId, title := p.title, content := p.content.getD "",
    filePaths := p.filePaths, importance := p.importance,
    relatedPages := p.relatedPages }

/-- Python dict assignment `d[k] = v`: overwrite in place if the key exists,
else append. -/
def dictInsert (d : List (String × CachePage)) (k : String) (v : CachePage) :
    List (String × CachePage) :=
  if d.any (fun kv => kv.1 == k) then
    d.map fun kv => if kv.1 == k then (k, v) else kv
  else d ++ [(k, v)]

/-- The parts of the cache JSON decided by the job's pages. -/
structure WikiCacheData where
  generatedPages : List (String × CachePage)
  structurePages : List CachePage
deriving DecidableEq, Repr

/-- `_save_to_wiki_cache` (worker.py lines 1578-1641): returns without
writing unless the persisted job status is `completed`; otherwise builds
`generated_pages` by inserting every page with status `completed`, and
overwrites the cached structure's `pages` list with the same completed
pages. -/
def saveToWikiCache (jobStatus : JobStatus) (pages : List JobPageView) :
    Option WikiCacheData :=
  if jobStatus ≠ .completed then none
  else
    some
      { generatedPages :=
          (pages.filter (fun p => p.status == .completed)).foldl
            (fun d p => dictInsert d p.pageId (mkCachePage p)) [],
        structurePages :=
          (pages.filter (fun p => p.status == .completed)).map mkCachePage }

/-! ## Concrete fixtures used by the closed evaluation theorems -/

/-- A one-page job at the start of phase 2: the single page is `pending`
with `retry_count = 0`, and the job counters read
`total_pages = 1, completed_pages = 0, failed_pages = 0`. -/
def onePageJobState : WorkerState :=
  { pages := [{ id := 1, status := .pending, retryCount := 0,
                lastError := none, content := none, tokensUsed := 0 }],
    counters := { totalPages := 1, completedPages := 0, failedPages := 0,
                  totalTokensUsed := 0,
                  tokenStats := ⟨0, 0, 0, 0, 0⟩ } }

/-! ## C1 — final status computation -/

/-- C1: the claim says a finished job with `failed_pages > 0` is set to
`partially_completed` with progress 100 and otherwise to `completed` with
progress 100.  The code is a slip: `JobStatus.PARTIALLY_COMPLETED`
(worker.py line 220) does not exist in the `JobStatus` enum of `models.py`,
so the `failed_pages > 0` branch raises `AttributeError` before any update,
and the `except` handler marks the job `failed` without setting progress to
100.  The `failed_pages = 0` branch behaves as claimed. -/
theorem processJobEpilogue_partially_completed_missing :
    jobStatusAttr "PARTIALLY_COMPLETED" = none
    ∧ computeFinalStatus 1 = none
    ∧ processJobEpilogue 1 = (JobStatus.failed, none)
    ∧ processJobEpilogue 0 = (JobStatus.completed, some 100) := by
  refine ⟨rfl, rfl, rfl, rfl⟩

/-! ## C2 — page counters versus total_pages -/

/-- C2: the claim says `completed_pages + failed_pages ≤ total_pages` always
holds, with equality at terminal status when `total_pages > 0`.  Evaluating
the sequential phase-2 loop on a one-page job whose only page fails on all
three attempts: `failed_pages` is incremented once per failed *attempt*
(worker.py line 468), so the job ends with `completed_pages = 0`,
`failed_pages = 3`, `total_pages = 1`, violating both parts of the claim. -/
theorem seqRun_failed_pages_exceed_total :
    (seqRun none (fun _ => .genFailure "Empty response from LLM") 10
        onePageJobState).counters.totalPages = 1
    ∧ (seqRun none (fun _ => .genFailure "Empty response from LLM") 10
        onePageJobState).counters.completedPages = 0
    ∧ (seqRun none (fun _ => .genFailure "Empty response from LLM") 10
        onePageJobState).counters.failedPages = 3
    ∧ ¬ ((seqRun none (fun _ => .genFailure "Empty response from LLM") 10
        onePageJobState).counters.completedPages
      + (seqRun none (fun _ => .genFailure "Empty response from LLM") 10
        onePageJobState).counters.failedPages
      ≤ (seqRun none (fun _ => .genFailure "Empty response from LLM") 10
        onePageJobState).counters.totalPages) := by
  refine ⟨rfl, rfl, rfl, by decide⟩

/-! ## C4 — token accounting on the success path -/

/-- C4: the claim says the page generator counts tokens for both the prompt
and the response and records them to the job's TokenStats.  Counterexample
at a concrete input: on the success path the response (8 characters,
2 tokens under the `len // 4` fallback) is counted and added to the job
row's `total_tokens_used`, while the `job_token_stats` row is returned
unchanged — no prompt is ever counted (the success path of
`_generate_page_content` does not read the prompt at all) and
`TokenTracker.update_provider_tokens` is never invoked. -/
theorem generatePageSuccess_ignores_tokenStats :
    (generatePageSuccess none onePageJobState 1 "xxxxxxxx").counters.tokenStats
      = onePageJobState.counters.tokenStats
    ∧ countTokens none "xxxxxxxx" = 2
    ∧ (generatePageSuccess none onePageJobState 1 "xxxxxxxx").counters.totalTokensUsed = 2
    ∧ updateProviderTokens onePageJobState.counters.tokenStats 2 2
        ≠ onePageJobState.counters.tokenStats := by
  refine ⟨rfl, rfl, rfl, by decide⟩

/-- C4 (amended): after a successful page generation the worker counts
tokens for the response only — `tiktoken` `cl100k_base` when importable,
`len(content) // 4` otherwise — adds the count to the job's
`total_tokens_used` and bumps `completed_pages`; the job's TokenStats row
is left unchanged because the worker never calls
`TokenTracker.update_provider_tokens`. -/
theorem generatePageSuccess_counts_response_only
    (encoder : Option (String → Nat)) (st : WorkerState) (pageId : Nat)
    (content : String) :
    (generatePageSuccess encoder st pageId content).counters.tokenStats
      = st.counters.tokenStats
    ∧ (generatePageSuccess encoder st pageId content).counters.totalTokensUsed
      = st.counters.totalTokensUsed + countTokens encoder content
    ∧ (generatePageSuccess encoder st pageId content).counters.completedPages
      = st.counters.completedPages + 1
    ∧ (generatePageSuccess encoder st pageId content).counters.failedPages
      = st.counters.failedPages := by
  unfold generatePageSuccess incrementJobPageCount
  by_cases h : countTokens encoder content > 0
  · simp [h]
  · simp [h]
    omega

/-! ## C5 — idempotent job creation -/

/-- A freshly inserted row matches its own duplicate-check predicate. -/
lemma isActiveDup_mkNewJob (req : CreateJobRequest) (jobId : String) :
    isActiveDup req (mkNewJob jobId req) = true := by
  simp [isActiveDup, mkNewJob, isTerminalStatus]
  cases req.model <;> simp [sqlModelMatch]

/-- C5: job creation is idempotent for active duplicates.  When no active
duplicate for `(owner, repo, language, provider, model)` exists, a new row
with `status = pending`, `current_phase = 0`, `progress_percent = 0` is
appended; when one exists, its id is returned and the table is unchanged;
hence two back-to-back calls with the same request return the same id, and
the second call inserts nothing. -/
theorem createJob_idempotent (jobs : List Job) (req : CreateJobRequest)
    (id1 id2 : String) :
    (jobs.find? (isActiveDup req) = none →
      createJob id1 jobs req = (id1, jobs ++ [mkNewJob id1 req])
      ∧ (mkNewJob id1 req).status = .pending
      ∧ (mkNewJob id1 req).currentPhase = 0
      ∧ (mkNewJob id1 req).progressPercent = 0)
    ∧ (∀ j, jobs.find? (isActiveDup req) = some j →
        createJob id1 jobs req = (j.id, jobs)
        ∧ isTerminalStatus j.status = false)
    ∧ createJob id2 (createJob id1 jobs req).2 req
        = ((createJob id1 jobs req).1, (createJob id1 jobs req).2) := by
  refine ⟨?_, ?_, ?_⟩
  · intro h
    simp [createJob, h, mkNewJob]
  · intro j h
    have hdup := List.find?_some h
    constructor
    · simp [createJob, h]
    · have : !isTerminalStatus j.status := by
        simp only [isActiveDup, Bool.and_eq_true] at hdup
        exact hdup.2
      simpa using this
  · rcases h : jobs.find? (isActiveDup req) with _ | j
    · have h2 : (jobs ++ [mkNewJob id1 req]).find? (isActiveDup req)
          = some (mkNewJob id1 req) := by
        rw [List.find?_append, h]
        simp [isActiveDup_mkNewJob]
      simp only [createJob, h, h2]
      rfl
    · simp [createJob, h]

/-! ## C7 — idempotent cancellation -/

/-- With pairwise-distinct ids, at most one row has a given id. -/
lemma length_filter_id_le_one (jobs : List Job) (jobId : String)
    (h : (jobs.map Job.id).Nodup) :
    (jobs.filter (fun j => j.id == jobId)).length ≤ 1 := by
  induction jobs with
  | nil => simp
  | cons j t ih =>
    rw [List.map_cons, List.nodup_cons] at h
    by_cases hj : j.id == jobId
    · have hnone : t.filter (fun x => x.id == jobId) = [] := by
        rw [List.filter_eq_nil_iff]
        intro x hx hxid
        apply h.1
        have hx' : x.id = jobId := by simpa using hxid
        have hjid : j.id = jobId := by simpa using hj
        rw [hjid, ← hx']
        exact List.mem_map_of_mem Job.id hx
      simp [hj, hnone]
    · simpa [hj] using ih h.2

/-- A row that has been through `cancelRow` no longer matches the
`cancel_job` precondition: it is either unrelated, already terminal, or has
just been cancelled. -/
lemma cancelRow_not_pre (jobId : String) (j : Job) :
    ((cancelRow jobId j).id == jobId
      && !isTerminalStatus (cancelRow jobId j).status) = false := by
  unfold cancelRow
  by_cases hc : (j.id == jobId && !isTerminalStatus j.status) = true
  · rw [if_pos hc]
    simp [isTerminalStatus]
  · rw [if_neg hc]
    simpa using hc

/-- C7: `cancel_job` is idempotent on its terminal target: the second call
leaves the table exactly as the first left it and reports no matched row;
and (given unique job ids, the table's primary key) the first call reports
`true` exactly when one row matched the conditional-UPDATE precondition. -/
theorem cancelJob_idempotent (jobs : List Job) (jobId : String)
    (h : (jobs.map Job.id).Nodup) :
    cancelJob (cancelJob jobs jobId).1 jobId = ((cancelJob jobs jobId).1, false)
    ∧ ((cancelJob jobs jobId).2 = true ↔ cancelMatchCount jobs jobId = 1) := by
  have hpre : ∀ x ∈ (cancelJob jobs jobId).1,
      (x.id == jobId && !isTerminalStatus x.status) = false := by
    intro x hx
    simp only [cancelJob, List.mem_map] at hx
    obtain ⟨j0, _, rfl⟩ := hx
    exact cancelRow_not_pre jobId j0
  constructor
  · have hmap : ((cancelJob jobs jobId).1).map (cancelRow jobId)
        = (cancelJob jobs jobId).1 := by
      have hcong := List.map_congr_left (l := (cancelJob jobs jobId).1)
        (f := cancelRow jobId) (g := id)
        (fun a ha => by unfold cancelRow; rw [if_neg]; · rfl
                        · simp [hpre a ha])
      simpa using hcong
    have hfil : ((cancelJob jobs jobId).1).filter
        (fun j => j.id == jobId && !isTerminalStatus j.status) = [] := by
      rw [List.filter_eq_nil_iff]
      intro a ha
      simp [hpre a ha]
    show (_, _) = (_, _)
    rw [Prod.mk.injEq]
    exact ⟨hmap, by simp [hfil]⟩
  · have hle : cancelMatchCount jobs jobId ≤ 1 := by
      have hff : jobs.filter (fun j => j.id == jobId && !isTerminalStatus j.status)
          = (jobs.filter (fun j => j.id == jobId)).filter
              (fun j => !isTerminalStatus j.status) := by
        rw [List.filter_filter]
        exact List.filter_congr fun a _ => Bool.and_comm _ _
      calc cancelMatchCount jobs jobId
          = ((jobs.filter (fun j => j.id == jobId)).filter
              (fun j => !isTerminalStatus j.status)).length := by
            rw [cancelMatchCount, hff]
        _ ≤ (jobs.filter (fun j => j.id == jobId)).length :=
            List.length_filter_le _ _
        _ ≤ 1 := length_filter_id_le_one jobs jobId h
    show (decide _ = true) ↔ _
    rw [decide_eq_true_iff]
    unfold cancelMatchCount at hle ⊢
    omega

/-! ## C9 — sliding-window rate limiter -/

/-- The rows surviving the `DELETE` of `check_rate_limit`: all rows except
this user's timestamps older than `now − 60 s`. -/
def prunedTable (userId : String) (nowMs : Int) (table : List RateRow) :
    List RateRow :=
  table.filter fun r =>
    !(r.userId == userId && r.requestTimestamp < nowMs - WINDOW_MS)

/-- C9: a `None` or non-positive limit admits unconditionally without
touching the table; otherwise the limiter first deletes the user's
timestamps older than `now − 60 s`, admits exactly when the count of the
user's surviving rows is strictly below the limit, and appends a row with
the current timestamp exactly when it admits. -/
theorem checkRateLimit_spec (userId : String) (limit : Option Int)
    (nowMs : Int) (table : List RateRow) :
    (limit = none → checkRateLimit userId limit nowMs table = (true, table))
    ∧ (∀ l : Int, limit = some l → l ≤ 0 →
        checkRateLimit userId limit nowMs table = (true, table))
    ∧ (∀ l : Int, limit = some l → 0 < l →
        ((checkRateLimit userId limit nowMs table).1 = true ↔
          (((prunedTable userId nowMs table).filter
              (fun r => r.userId == userId)).length : Int) < l)
        ∧ ((checkRateLimit userId limit nowMs table).1 = true →
            (checkRateLimit userId limit nowMs table).2 =
              prunedTable userId nowMs table ++ [⟨userId, nowMs⟩])
        ∧ ((checkRateLimit userId limit nowMs table).1 = false →
            (checkRateLimit userId limit nowMs table).2 =
              prunedTable userId nowMs table)) := by
  refine ⟨?_, ?_, ?_⟩
  · intro h; simp [checkRateLimit, h]
  · intro l hl hle
    simp [checkRateLimit, hl, if_pos hle]
  · intro l hl hpos
    subst hl
    have hnle : ¬ l ≤ 0 := not_le.mpr hpos
    have e : checkRateLimit userId (some l) nowMs table =
        (if l ≤ (((prunedTable userId nowMs table).filter
            (fun r => r.userId == userId)).length : Int) then
          (false, prunedTable userId nowMs table)
        else
          (true, prunedTable userId nowMs table ++ [⟨userId, nowMs⟩])) := by
      simp only [checkRateLimit]
      rw [if_neg hnle]
      rfl
    by_cases hcnt : l ≤ (((prunedTable userId nowMs table).filter
        (fun r => r.userId == userId)).length : Int)
    · rw [e, if_pos hcnt]
      refine ⟨?_, ?_, ?_⟩
      · simp
        omega
      · intro habs
        exact absurd habs (by simp)
      · intro _
        rfl
    · rw [e, if_neg hcnt]
      refine ⟨?_, ?_, ?_⟩
      · simp
        omega
      · intro _
        rfl
      · intro habs
        exact absurd habs (by simp)

/-! ## C6 — endpoint selection and cooldown -/

/-- The circular scan only ever returns the index of an endpoint that is not
rate limited at `now`. -/
lemma findAvailableIdx_sound (eps : List AzureEndpoint) (now : Int)
    (start : Nat) :
    ∀ cnt i idx, findAvailableIdx eps now start cnt i = some idx →
      ∃ ep, eps[idx]? = some ep ∧ ep.isRateLimited now = false := by
  intro cnt
  induction cnt with
  | zero => intro i idx h; simp [findAvailableIdx] at h
  | succ n ih =>
    intro i idx h
    rw [findAvailableIdx] at h
    split at h
    · rename_i ep heq
      split at h
      · exact ih (i + 1) idx h
      · rename_i hrl
        obtain rfl : (start + 1 + i) % eps.length = idx := by
          simpa using h
        exact ⟨ep, heq, by simpa using hrl⟩
    · exact absurd h (by simp)

/-- When `select_next_available_endpoint` returns `True`, the endpoint list
is untouched and the newly current endpoint is not rate limited at `now`. -/
lemma selectNext_sound (now : Int) (st st' : HAState)
    (h : selectNextAvailableEndpoint now st = (st', true)) :
    st'.endpoints = st.endpoints ∧
    ∃ ep, st'.endpoints[st'.currentEndpointIndex]? = some ep ∧
      ep.isRateLimited now = false := by
  unfold selectNextAvailableEndpoint at h
  by_cases hav : (getAvailableEndpoints now st).isEmpty
  · rw [if_pos hav] at h
    have hb : (false : Bool) = true := congrArg Prod.snd h
    simp at hb
  · rw [if_neg hav] at h
    rcases hfind : findAvailableIdx st.endpoints now st.currentEndpointIndex
        st.endpoints.length 0 with _ | idx
    · rw [hfind] at h
      have hb : (false : Bool) = true := congrArg Prod.snd h
      simp at hb
    · rw [hfind] at h
      obtain rfl : ({ st with currentEndpointIndex := idx } : HAState) = st' :=
        congrArg Prod.fst h
      obtain ⟨ep, hep, hrl⟩ :=
        findAvailableIdx_sound st.endpoints now st.currentEndpointIndex
          st.endpoints.length 0 idx hfind
      exact ⟨rfl, ep, hep, hrl⟩

/-- `handleApiError` at a failure count below 2 only bumps the count of the
current endpoint; the index and every `rate_limit_until` stay put. -/
lemma handleApiError_below (now : Int) (st : HAState) (ep : AzureEndpoint)
    (hep : st.endpoints[st.currentEndpointIndex]? = some ep)
    (hcnt : ep.failureCount + 1 < 3) :
    handleApiError now st =
      setEndpoint st st.currentEndpointIndex
        { ep with failureCount := ep.failureCount + 1 } := by
  unfold handleApiError
  rw [hep]
  simp only [AzureEndpoint.incrementFailure]
  rw [if_neg (by omega)]

/-- `handleApiError` at the third failure: the current endpoint is marked
rate limited for 90 seconds and the selection advances. -/
lemma handleApiError_third (now : Int) (st : HAState) (ep : AzureEndpoint)
    (hep : st.endpoints[st.currentEndpointIndex]? = some ep)
    (hcnt : 3 ≤ ep.failureCount + 1) :
    handleApiError now st =
      (selectNextAvailableEndpoint now
        (setEndpoint st st.currentEndpointIndex
          { ep with failureCount := ep.failureCount + 1,
                    rateLimitUntil := some (now + 90) })).1 := by
  unfold handleApiError
  rw [hep]
  simp only [AzureEndpoint.incrementFailure, AzureEndpoint.markRateLimited]
  rw [if_pos (by simpa using hcnt)]

/-- `select_next_available_endpoint` never modifies the endpoint list. -/
lemma selectNext_preserves_endpoints (now : Int) (st : HAState) :
    (selectNextAvailableEndpoint now st).1.endpoints = st.endpoints := by
  unfold selectNextAvailableEndpoint
  by_cases hav : (getAvailableEndpoints now st).isEmpty
  · rw [if_pos hav]
  · rw [if_neg hav]
    rcases hfind : findAvailableIdx st.endpoints now st.currentEndpointIndex
        st.endpoints.length 0 with _ | idx <;> simp

/-- C6: an endpoint whose `rate_limit_until` lies in the future is never the
endpoint selected by `select_next_available_endpoint`; and three consecutive
non-rate-limit failures on the current endpoint put it in a 90-second
cooldown (`rate_limit_until = now + 90`), during which the selection
likewise never lands on it. -/
theorem endpoint_selection_respects_cooldowns (now : Int) (st : HAState) :
    (∀ st' ep, selectNextAvailableEndpoint now st = (st', true) →
      st'.endpoints[st'.currentEndpointIndex]? = some ep →
      ep.isRateLimited now = false)
    ∧ (∀ ep0, st.endpoints[st.currentEndpointIndex]? = some ep0 →
        ep0.failureCount = 0 →
        ∃ ep3,
          (handleApiError now (handleApiError now (handleApiError now
            st))).endpoints[st.currentEndpointIndex]? = some ep3
          ∧ ep3.rateLimitUntil = some (now + 90)
          ∧ ∀ t st4, t < now + 90 →
              selectNextAvailableEndpoint t
                (handleApiError now (handleApiError now (handleApiError now
                  st))) = (st4, true) →
              st4.currentEndpointIndex ≠ st.currentEndpointIndex) := by
  constructor
  · intro st' ep hsel hep
    obtain ⟨-, ep', hep', hrl'⟩ := selectNext_sound now st st' hsel
    rw [hep'] at hep
    cases hep
    exact hrl'
  · intro ep0 hep0 hcnt0
    set i := st.currentEndpointIndex with hi
    have hlen : i < st.endpoints.length := by
      by_contra hge
      rw [List.getElem?_eq_none (by omega)] at hep0
      exact absurd hep0 (by simp)
    -- first failure
    have h1 : handleApiError now st =
        setEndpoint st i { ep0 with failureCount := 1 } := by
      have := handleApiError_below now st ep0 hep0 (by omega)
      simpa [hcnt0] using this
    have hidx1 : (handleApiError now st).currentEndpointIndex = i := by
      rw [h1]; rfl
    have hget1 : (handleApiError now st).endpoints[i]? =
        some { ep0 with failureCount := 1 } := by
      rw [h1]
      simp [setEndpoint, List.getElem?_set_self, hlen]
    have hlen1 : (handleApiError now st).endpoints.length =
        st.endpoints.length := by
      rw [h1]; simp [setEndpoint]
    -- second failure
    have h2 : handleApiError now (handleApiError now st) =
        setEndpoint (handleApiError now st) i
          { ep0 with failureCount := 2 } := by
      have := handleApiError_below now (handleApiError now st)
        { ep0 with failureCount := 1 } (by rw [hidx1]; exact hget1) (by simp)
      rw [hidx1] at this
      exact this
    set st2 := handleApiError now (handleApiError now st) with hst2
    have hidx2 : st2.currentEndpointIndex = i := by
      rw [h2]; simpa [setEndpoint] using hidx1
    have hlen2 : st2.endpoints.length = st.endpoints.length := by
      rw [h2]; simpa [setEndpoint] using hlen1
    have hget2 : st2.endpoints[i]? = some { ep0 with failureCount := 2 } := by
      rw [h2]
      show ((handleApiError now st).endpoints.set i _)[i]? = _
      exact List.getElem?_set_eq_of_lt _ (by omega)
    -- third failure: cooldown and switch
    have h3 : handleApiError now st2 =
        (selectNextAvailableEndpoint now
          (setEndpoint st2 i
            { ep0 with failureCount := 3,
                       rateLimitUntil := some (now + 90) })).1 := by
      have := handleApiError_third now st2 { ep0 with failureCount := 2 }
        (by rw [hidx2]; exact hget2) (by simp)
      rw [hidx2] at this
      exact this
    have hget3 : (handleApiError now st2).endpoints[i]? =
        some { ep0 with failureCount := 3, rateLimitUntil := some (now + 90) } := by
      rw [h3, selectNext_preserves_endpoints]
      show (st2.endpoints.set i _)[i]? = _
      exact List.getElem?_set_eq_of_lt _ (by omega)
    refine ⟨_, hget3, rfl, ?_⟩
    intro t st4 ht hsel hidx4
    obtain ⟨heps4, ep', hep', hrl'⟩ := selectNext_sound t _ st4 hsel
    rw [hidx4, heps4, hget3] at hep'
    cases hep'
    simp [AzureEndpoint.isRateLimited] at hrl'
    omega

/-! ## C10 — wiki cache artifact -/

/-- Keys after a Python dict assignment: the old keys plus, when new, the
inserted key. -/
lemma mem_dictInsert_keys (d : List (String × CachePage)) (k x : String)
    (v : CachePage) :
    x ∈ (dictInsert d k v).map Prod.fst ↔ x ∈ d.map Prod.fst ∨ x = k := by
  unfold dictInsert
  by_cases hk : (d.any fun kv => kv.1 == k) = true
  · rw [if_pos hk]
    have hmap : (d.map fun kv => if kv.1 == k then (k, v) else kv).map Prod.fst
        = d.map Prod.fst := by
      rw [List.map_map]
      apply List.map_congr_left
      intro kv _
      by_cases h1 : (kv.1 == k) = true
      · simp only [Function.comp_apply, h1, if_true]
        exact (eq_of_beq h1).symm
      · have h1' : kv.1 ≠ k := by simpa using h1
        simp [Function.comp_apply, h1']
    rw [hmap]
    rw [List.any_eq_true] at hk
    obtain ⟨kv0, hkv0, hk0⟩ := hk
    constructor
    · exact Or.inl
    · rintro (h | rfl)
      · exact h
      · exact List.mem_map.mpr ⟨kv0, hkv0, eq_of_beq hk0⟩
  · rw [if_neg hk]
    simp

/-- Membership in the `generated_pages` dict built by folding insertions. -/
lemma mem_generatedPages_keys (l : List JobPageView)
    (d : List (String × CachePage)) (k : String) :
    k ∈ (l.foldl (fun d p => dictInsert d p.pageId (mkCachePage p)) d).map
        Prod.fst
      ↔ k ∈ d.map Prod.fst ∨ ∃ p ∈ l, p.pageId = k := by
  induction l generalizing d with
  | nil => simp
  | cons p t ih =>
    rw [List.foldl_cons, ih, mem_dictInsert_keys]
    constructor
    · rintro (⟨h | rfl⟩ | ⟨q, hq, rfl⟩)
      · exact Or.inl h
      · exact Or.inr ⟨p, by simp⟩
      · exact Or.inr ⟨q, List.mem_cons_of_mem p hq, rfl⟩
    · rintro (h | ⟨q, hq, rfl⟩)
      · exact Or.inl (Or.inl h)
      · rcases List.mem_cons.mp hq with rfl | hq2
        · exact Or.inl (Or.inr rfl)
        · exact Or.inr ⟨q, hq2, rfl⟩

/-- Every dict entry after an insertion is an old entry or the new pair. -/
lemma mem_dictInsert (d : List (String × CachePage)) (k : String)
    (v : CachePage) (kv : String × CachePage) (h : kv ∈ dictInsert d k v) :
    kv ∈ d ∨ kv = (k, v) := by
  unfold dictInsert at h
  by_cases hk : (d.any fun x => x.1 == k) = true
  · rw [if_pos hk] at h
    rw [List.mem_map] at h
    obtain ⟨kv0, hkv0, hkveq⟩ := h
    by_cases h1 : (kv0.1 == k) = true
    · rw [if_pos h1] at hkveq
      exact Or.inr hkveq.symm
    · rw [if_neg h1] at hkveq
      exact Or.inl (hkveq ▸ hkv0)
  · rw [if_neg hk] at h
    rcases List.mem_append.mp h with h | h
    · exact Or.inl h
    · exact Or.inr (by simpa using h)

/-- Every entry of the folded dict comes from the seed or from the list. -/
lemma mem_generatedPages (l : List JobPageView)
    (d : List (String × CachePage)) (kv : String × CachePage)
    (h : kv ∈ l.foldl (fun d p => dictInsert d p.pageId (mkCachePage p)) d) :
    kv ∈ d ∨ ∃ p ∈ l, kv = (p.pageId, mkCachePage p) := by
  induction l generalizing d with
  | nil => exact Or.inl (by simpa using h)
  | cons p t ih =>
    rw [List.foldl_cons] at h
    rcases ih _ h with h2 | ⟨q, hq, rfl⟩
    · rcases mem_dictInsert _ _ _ _ h2 with h3 | rfl
      · exact Or.inl h3
      · exact Or.inr ⟨p, by simp⟩
    · exact Or.inr ⟨q, List.mem_cons_of_mem p hq, rfl⟩

/-- C10: the wiki cache artifact is written only when the persisted job
status is `completed`; when written, the cached structure's `pages` list is
exactly the completed pages (in order), the `generated_pages` keys are
exactly the completed pages' ids, and every `generated_pages` entry is the
cache rendering of a completed page. -/
theorem saveToWikiCache_only_completed (jobStatus : JobStatus)
    (pages : List JobPageView) :
    (jobStatus ≠ .completed → saveToWikiCache jobStatus pages = none)
    ∧ (jobStatus = .completed → ∃ cache,
        saveToWikiCache jobStatus pages = some cache
        ∧ cache.structurePages =
            (pages.filter (fun p => p.status == .completed)).map mkCachePage
        ∧ (∀ k, k ∈ cache.generatedPages.map Prod.fst ↔
            ∃ p ∈ pages, p.status = .completed ∧ p.pageId = k)
        ∧ (∀ kv ∈ cache.generatedPages, ∃ p ∈ pages,
            p.status = .completed ∧ kv = (p.pageId, mkCachePage p))) := by
  constructor
  · intro h
    simp [saveToWikiCache, h]
  · intro h
    subst h
    have hsv : saveToWikiCache .completed pages = some
        { generatedPages :=
            (pages.filter (fun p => p.status == .completed)).foldl
              (fun d p => dictInsert d p.pageId (mkCachePage p)) [],
          structurePages :=
            (pages.filter (fun p => p.status == .completed)).map mkCachePage } := by
      simp [saveToWikiCache]
    refine ⟨_, hsv, rfl, ?_, ?_⟩
    · intro k
      rw [mem_generatedPages_keys]
      simp only [List.map_nil, List.mem_filter, List.not_mem_nil, false_or]
      constructor
      · rintro ⟨p, ⟨hp, hpc⟩, rfl⟩
        exact ⟨p, hp, by simpa using hpc, rfl⟩
      · rintro ⟨p, hp, hpc, rfl⟩
        exact ⟨p, ⟨hp, by simpa using hpc⟩, rfl⟩
    · intro kv hkv
      rcases mem_generatedPages _ _ _ hkv with h0 | ⟨p, hp, rfl⟩
      · exact absurd h0 (by simp)
      · rw [List.mem_filter] at hp
        exact ⟨p, hp.1, by simpa using hp.2, rfl⟩

/-! ## C3 — retry counting and permanent-failure promotion -/

/-- The C3 invariant over a `job_pages` table: a retry count at or above
`MAX_PAGE_RETRIES` only ever occurs on `permanent_failed` or `completed`
rows. -/
def pagesRetryInvariant (pages : List PageRow) : Prop :=
  ∀ p ∈ pages, MAX_PAGE_RETRIES ≤ p.retryCount →
    p.status = .permanentFailed ∨ p.status = .completed

instance decPagesRetryInvariant (pages : List PageRow) :
    Decidable (pagesRetryInvariant pages) := by
  unfold pagesRetryInvariant
  infer_instance

/-- `update_page_status` never changes a row's id. -/
lemma applyPageUpdate_id (pageId : Nat) (status : PageStatus)
    (content : Option String) (tokens : Option Nat) (error : Option String)
    (p : PageRow) :
    (applyPageUpdate pageId status content tokens error p).id = p.id := by
  unfold applyPageUpdate
  by_cases h : (p.id == pageId) = true <;>
    rcases content with _ | c <;> rcases tokens with _ | t <;>
    rcases error with _ | e <;> simp [h]

/-- A row with a different id passes through `update_page_status`
untouched. -/
lemma applyPageUpdate_ne (pageId : Nat) (status : PageStatus)
    (content : Option String) (tokens : Option Nat) (error : Option String)
    (p : PageRow) (h : (p.id == pageId) = false) :
    applyPageUpdate pageId status content tokens error p = p := by
  unfold applyPageUpdate
  rw [if_neg (by simp [h])]

/-- The matched row's status after `update_page_status` is the given one. -/
lemma applyPageUpdate_status (pageId : Nat) (status : PageStatus)
    (content : Option String) (tokens : Option Nat) (error : Option String)
    (p : PageRow) (h : (p.id == pageId) = true) :
    (applyPageUpdate pageId status content tokens error p).status = status := by
  unfold applyPageUpdate
  rw [if_pos h]
  rcases content with _ | c <;> rcases tokens with _ | t <;>
    rcases error with _ | e <;> simp

/-- Without an `error`, `update_page_status` keeps `retry_count`. -/
lemma applyPageUpdate_retry_noerr (pageId : Nat) (status : PageStatus)
    (content : Option String) (tokens : Option Nat) (p : PageRow) :
    (applyPageUpdate pageId status content tokens none p).retryCount
      = p.retryCount := by
  unfold applyPageUpdate
  by_cases h : (p.id == pageId) = true <;>
    rcases content with _ | c <;> rcases tokens with _ | t <;> simp [h]

/-- With an `error`, `update_page_status` increments the matched row's
`retry_count`. -/
lemma applyPageUpdate_retry_err (pageId : Nat) (status : PageStatus)
    (content : Option String) (tokens : Option Nat) (e : String)
    (p : PageRow) (h : (p.id == pageId) = true) :
    (applyPageUpdate pageId status content tokens (some e) p).retryCount
      = p.retryCount + 1 := by
  unfold applyPageUpdate
  rw [if_pos h]
  rcases content with _ | c <;> rcases tokens with _ | t <;> simp

/-- `update_page_status` preserves the id column of the table. -/
lemma updatePageStatus_map_id (pages : List PageRow) (pageId : Nat)
    (status : PageStatus) (content : Option String) (tokens : Option Nat)
    (error : Option String) :
    (updatePageStatus pages pageId status content tokens error).map PageRow.id
      = pages.map PageRow.id := by
  unfold updatePageStatus
  rw [List.map_map]
  exact List.map_congr_left fun p _ => applyPageUpdate_id _ _ _ _ _ p

/-- One page attempt preserves the id column of the table. -/
lemma processOnePage_map_id (encoder : Option (String → Nat))
    (st : WorkerState) (page : PageRow) (outcome : AttemptOutcome) :
    ((processOnePage encoder st page outcome).1).pages.map PageRow.id
      = st.pages.map PageRow.id := by
  rcases outcome with content | err | _
  · simp [processOnePage, generatePageSuccess, updatePageStatus_map_id]
  · unfold processOnePage generatePageFailure
    by_cases h : MAX_PAGE_RETRIES - 1 ≤ page.retryCount <;>
      simp [h, updatePageStatus_map_id]
  · simp [processOnePage, updatePageStatus_map_id]

/-- The page chosen at the top of a loop iteration is a row of the table. -/
lemma selectPage_mem (pages : List PageRow) (page : PageRow)
    (h : selectPage pages = some page) : page ∈ pages := by
  unfold selectPage at h
  rcases h1 : getNextPendingPage pages with _ | p
  · rw [h1] at h
    have h2 : ((getFailedPages pages).filter
        fun p => p.retryCount < MAX_PAGE_RETRIES).head? = some page := h
    have hmem : page ∈ (getFailedPages pages).filter
        (fun p => p.retryCount < MAX_PAGE_RETRIES) :=
      List.mem_of_mem_head? (Option.mem_def.mpr h2)
    have h3 := (List.mem_filter.mp hmem).1
    unfold getFailedPages at h3
    exact (List.mem_filter.mp h3).1
  · rw [h1] at h
    cases h
    exact List.mem_of_find?_eq_some h1

/-- Rows of the table reached by a double `update_page_status` are images
of original rows. -/
lemma mem_double_update {pages : List PageRow} {pid : Nat}
    {s1 s2 : PageStatus} {c1 c2 : Option String} {t1 t2 : Option Nat}
    {e1 e2 : Option String} {q : PageRow}
    (hq : q ∈ updatePageStatus (updatePageStatus pages pid s1 c1 t1 e1)
      pid s2 c2 t2 e2) :
    ∃ p ∈ pages,
      q = applyPageUpdate pid s2 c2 t2 e2 (applyPageUpdate pid s1 c1 t1 e1 p) := by
  unfold updatePageStatus at hq
  rw [List.map_map, List.mem_map] at hq
  obtain ⟨p, hp, rfl⟩ := hq
  exact ⟨p, hp, rfl⟩

/-- One timeout-free page attempt preserves the retry invariant (given
unique page ids, the table's primary key). -/
lemma processOnePage_inv (encoder : Option (String → Nat))
    (st : WorkerState) (page : PageRow) (outcome : AttemptOutcome)
    (hnodup : (st.pages.map PageRow.id).Nodup)
    (hmem : page ∈ st.pages)
    (hout : outcome ≠ AttemptOutcome.pageTimeout)
    (hinv : pagesRetryInvariant st.pages) :
    pagesRetryInvariant ((processOnePage encoder st page outcome).1).pages := by
  have hinj : ∀ p ∈ st.pages, p.id = page.id → p = page :=
    fun p hp hpi => List.inj_on_of_nodup_map hnodup hp hmem hpi
  rcases outcome with content | err | _
  · -- success: the matched row ends `completed`
    intro q hq h3
    simp only [processOnePage, generatePageSuccess] at hq
    unfold updatePageStatus at hq
    rw [List.map_map, List.map_map, List.mem_map] at hq
    obtain ⟨p, hp, heq⟩ := hq
    subst heq
    simp only [Function.comp_apply] at h3 ⊢
    by_cases hpid : (p.id == page.id) = true
    · right
      refine applyPageUpdate_status _ _ _ _ _ _ ?_
      rw [applyPageUpdate_id, applyPageUpdate_id]
      exact hpid
    · have hpid2 : (p.id == page.id) = false := by simpa using hpid
      simp only [applyPageUpdate_ne _ _ _ _ _ _ hpid2] at h3 ⊢
      exact hinv p hp h3
  · -- a failure caught inside `_generate_page_content`
    by_cases hr : MAX_PAGE_RETRIES - 1 ≤ page.retryCount
    · have hpag : ((processOnePage encoder st page (.genFailure err)).1).pages
          = updatePageStatus
              (updatePageStatus st.pages page.id .inProgress none none none)
              page.id .permanentFailed none none
              (some (String.mk (err.toList.take 1000))) := by
        simp [processOnePage, generatePageFailure, hr]
      intro q hq h3
      rw [hpag] at hq
      obtain ⟨p, hp, heq⟩ := mem_double_update hq
      subst heq
      by_cases hpid : (p.id == page.id) = true
      · left
        refine applyPageUpdate_status _ _ _ _ _ _ ?_
        rw [applyPageUpdate_id]
        exact hpid
      · have hpid2 : (p.id == page.id) = false := by simpa using hpid
        simp only [applyPageUpdate_ne _ _ _ _ _ _ hpid2] at h3 ⊢
        exact hinv p hp h3
    · have hpag : ((processOnePage encoder st page (.genFailure err)).1).pages
          = updatePageStatus
              (updatePageStatus st.pages page.id .inProgress none none none)
              page.id .failed none none
              (some (String.mk (err.toList.take 1000))) := by
        simp [processOnePage, generatePageFailure, hr]
      intro q hq h3
      rw [hpag] at hq
      obtain ⟨p, hp, heq⟩ := mem_double_update hq
      subst heq
      by_cases hpid : (p.id == page.id) = true
      · -- the fetched retry count is below the limit, so the new count
        -- stays below it and the hypothesis of the invariant is vacuous
        exfalso
        have hpe : p = page := hinj p hp (by simpa using hpid)
        subst hpe
        rw [applyPageUpdate_retry_err _ _ _ _ _ _
              (by rw [applyPageUpdate_id]; exact hpid),
            applyPageUpdate_retry_noerr] at h3
        simp [MAX_PAGE_RETRIES] at hr h3
        omega
      · have hpid2 : (p.id == page.id) = false := by simpa using hpid
        simp only [applyPageUpdate_ne _ _ _ _ _ _ hpid2] at h3 ⊢
        exact hinv p hp h3
  · exact absurd rfl hout

/-- No attempt outcome scheduled by the environment is a page-level
timeout. -/
def noTimeouts (outcomes : Nat → AttemptOutcome) : Prop :=
  ∀ n, outcomes n ≠ .pageTimeout

/-- The phase-2 loop preserves the retry invariant on timeout-free runs. -/
lemma seqLoop_retry_invariant (encoder : Option (String → Nat))
    (outcomes : Nat → AttemptOutcome) :
    ∀ fuel attempt st, noTimeouts outcomes →
      (st.pages.map PageRow.id).Nodup →
      pagesRetryInvariant st.pages →
      pagesRetryInvariant (seqLoop encoder outcomes fuel attempt st).pages := by
  intro fuel
  induction fuel with
  | zero =>
    intro attempt st _ _ hinv
    simpa [seqLoop] using hinv
  | succ n ih =>
    intro attempt st hto hnodup hinv
    rw [seqLoop]
    rcases hsel : selectPage st.pages with _ | page
    · exact hinv
    · exact ih (attempt + 1)
        ((processOnePage encoder st page (outcomes attempt)).1) hto
        (by rw [processOnePage_map_id]; exact hnodup)
        (processOnePage_inv _ _ _ _ hnodup (selectPage_mem _ _ hsel)
          (hto attempt) hinv)

/-- The environment that always answers with an LLM failure. -/
def allGenFailures : Nat → AttemptOutcome :=
  fun _ => .genFailure "Empty response from LLM"

/-- The environment whose third attempt hits the page-level
`asyncio.wait_for` timeout of the processing loop. -/
def thirdAttemptTimesOut : Nat → AttemptOutcome :=
  fun n => if n = 2 then .pageTimeout else .genFailure "boom"

/-- C3 (counterexample): run the sequential loop on a fresh one-page job
whose first two attempts fail inside `_generate_page_content` and whose
third attempt hits the page-level timeout (worker.py lines 455-461).  The
timeout branch records the error and increments `retry_count` but never
performs the `permanent_failed` promotion check, leaving the page with
`status = failed` and `retry_count = 3 = MAX_PAGE_RETRIES` — refuting the
claimed invariant. -/
theorem page_timeout_breaks_retry_invariant :
    ¬ pagesRetryInvariant
        (seqRun none thirdAttemptTimesOut 10 onePageJobState).pages
    ∧ (seqRun none thirdAttemptTimesOut 10 onePageJobState).pages =
        [{ id := 1, status := .failed, retryCount := 3,
           lastError := some "Page generation timed out (exceeded 10 minutes)",
           content := none, tokensUsed := 0 }] := by
  exact ⟨by decide, by decide⟩

/-- C3 (amended): on runs without page-level timeouts the invariant holds —
from a table satisfying it (with unique page ids), every page of the final
table with `retry_count ≥ MAX_PAGE_RETRIES` is `permanent_failed` or
`completed`.  Moreover every failure recorded by `_generate_page_content`
behaves as the claim states: the resulting table contains the attempted row
with `last_error` recorded (truncated to 1000 characters), `retry_count`
incremented, and the status promoted to `permanent_failed` rather than
`failed` exactly when the fetched `retry_count` has reached
`MAX_PAGE_RETRIES - 1`. -/
theorem retry_invariant_without_timeouts (encoder : Option (String → Nat))
    (outcomes : Nat → AttemptOutcome) (fuel : Nat) (st : WorkerState)
    (hto : noTimeouts outcomes)
    (hnodup : (st.pages.map PageRow.id).Nodup)
    (hinv : pagesRetryInvariant st.pages) :
    pagesRetryInvariant (seqRun encoder outcomes fuel st).pages
    ∧ ∀ (st2 : WorkerState) (page : PageRow) (err : String), page ∈ st2.pages →
        ({ page with
            status := if MAX_PAGE_RETRIES - 1 ≤ page.retryCount then
              PageStatus.permanentFailed else PageStatus.failed,
            lastError := some (String.mk (err.toList.take 1000)),
            retryCount := page.retryCount + 1 } : PageRow)
          ∈ (generatePageFailure st2 page err).pages := by
  constructor
  · exact seqLoop_retry_invariant encoder outcomes fuel 0 st hto hnodup hinv
  · intro st2 page err hmem
    unfold generatePageFailure
    by_cases hr : MAX_PAGE_RETRIES - 1 ≤ page.retryCount
    · rw [if_pos hr]
      simp only [if_pos hr]
      exact List.mem_map.mpr ⟨page, hmem, by simp [applyPageUpdate]⟩
    · rw [if_neg hr]
      simp only [if_neg hr]
      exact List.mem_map.mpr ⟨page, hmem, by simp [applyPageUpdate]⟩

/-- C3 (witness): the amended invariant, instantiated on a concrete
timeout-free run — a one-page job whose page fails on every attempt. -/
theorem retry_invariant_without_timeouts_witness :
    noTimeouts allGenFailures
    ∧ (onePageJobState.pages.map PageRow.id).Nodup
    ∧ pagesRetryInvariant onePageJobState.pages
    ∧ pagesRetryInvariant
        (seqRun none allGenFailures 10 onePageJobState).pages :=
  ⟨fun n => by simp [allGenFailures], by decide, by decide,
   (retry_invariant_without_timeouts none allGenFailures 10 onePageJobState
     (fun n => by simp [allGenFailures]) (by decide) (by decide)).1⟩

/-! ## C8 — Mermaid validation and fixing -/

/-- A diagram that validates on the first pass is left untouched and costs
no LLM call. -/
lemma mermaidFixStep_valid (oracle : String → String) (acc : List Char × Nat)
    (d : List Char × Nat × Nat) (h : validateMermaid d.1 = none) :
    mermaidFixStep oracle acc d = acc := by
  unfold mermaidFixStep fixOneDiagram
  rw [h]
  simp

/-- Each step performs one LLM round-trip exactly when the diagram is
invalid. -/
lemma mermaidFixStep_snd (oracle : String → String) (acc : List Char × Nat)
    (d : List Char × Nat × Nat) :
    (mermaidFixStep oracle acc d).2 =
      acc.2 + (if (validateMermaid d.1).isSome then 1 else 0) := by
  unfold mermaidFixStep fixOneDiagram
  rcases h : validateMermaid d.1 with _ | msg
  · simp
  · simp only [Option.isSome_some, if_true]
    split <;> rfl

/-- A run of valid diagrams leaves the accumulator untouched. -/
lemma foldl_mermaidFixStep_id (oracle : String → String)
    (l : List (List Char × Nat × Nat)) :
    ∀ acc, (∀ d ∈ l, validateMermaid d.1 = none) →
      l.foldl (mermaidFixStep oracle) acc = acc := by
  induction l with
  | nil => intro acc _; rfl
  | cons d t ih =>
    intro acc hall
    rw [List.foldl_cons, mermaidFixStep_valid oracle acc d (hall d (by simp))]
    exact ih acc fun d hd => hall d (by simp [hd])

/-- The accumulated call count is the number of invalid diagrams. -/
lemma foldl_mermaidFixStep_snd (oracle : String → String)
    (l : List (List Char × Nat × Nat)) :
    ∀ acc, (l.foldl (mermaidFixStep oracle) acc).2 =
      acc.2 + l.countP (fun d => (validateMermaid d.1).isSome) := by
  induction l with
  | nil => intro acc; simp
  | cons d t ih =>
    intro acc
    rw [List.foldl_cons, ih, mermaidFixStep_snd, List.countP_cons]
    by_cases h : (validateMermaid d.1).isSome
    · simp [h]
      omega
    · simp [h]

/-- C8: (a) content whose fenced Mermaid blocks all validate on the first
pass comes out byte-identical with zero LLM calls; (b) the number of LLM
fix round-trips is exactly the number of invalid blocks — one per invalid
block, none for valid ones; (c) when the single extracted block is invalid
and the LLM's fixed diagram (after wrapper stripping) still fails
validation, the block's span is replaced by the one-line removal notice. -/
theorem mermaid_validate_fix_spec (oracle : String → String)
    (content : List Char) :
    ((∀ d ∈ extractMermaidDiagrams content, validateMermaid d.1 = none) →
      validateAndFixMermaidDiagrams oracle content = (content, 0))
    ∧ (validateAndFixMermaidDiagrams oracle content).2 =
        (extractMermaidDiagrams content).countP
          (fun d => (validateMermaid d.1).isSome)
    ∧ (∀ code s e msg, extractMermaidDiagrams content = [(code, s, e)] →
        validateMermaid code = some msg →
        (validateMermaid (remTrailWrapper (remLeadWrapper (pyStrip
          (oracle (mermaidFixPrompt msg (String.mk code))).toList)))).isSome
            = true →
        validateAndFixMermaidDiagrams oracle content =
          (spliceList content s e removalNote, 1)) := by
  refine ⟨?_, ?_, ?_⟩
  · intro hall
    unfold validateAndFixMermaidDiagrams
    exact foldl_mermaidFixStep_id oracle _ _
      fun d hd => hall d (List.mem_reverse.mp hd)
  · unfold validateAndFixMermaidDiagrams
    rw [foldl_mermaidFixStep_snd]
    rw [List.countP_eq_length_filter, List.countP_eq_length_filter,
      List.filter_reverse, List.length_reverse]
    simp
  · intro code s e msg hext hval hfix
    unfold validateAndFixMermaidDiagrams
    rw [hext, List.reverse_singleton, List.foldl_cons, List.foldl_nil]
    unfold mermaidFixStep fixOneDiagram
    rw [hval]
    have hnone : (validateMermaid (remTrailWrapper (remLeadWrapper (pyStrip
        (oracle (mermaidFixPrompt msg (String.mk code))).toList)))).isNone
          = false := by
      rcases hv : validateMermaid (remTrailWrapper (remLeadWrapper (pyStrip
          (oracle (mermaidFixPrompt msg (String.mk code))).toList))) with _ | m2
      · rw [hv] at hfix
        exact absurd hfix (by simp)
      · rfl
    simp only [hnone, Bool.false_eq_true, if_false]

/-! ## Witness fixtures and witnesses -/

/-- A concrete creation request. -/
def reqFixture : CreateJobRequest :=
  { owner := "octo", repo := "wiki", language := "en",
    provider := "google", model := none }

/-- C5 (witness): creating on an empty table inserts the pending row, and a
back-to-back duplicate creation returns the same id without inserting. -/
theorem createJob_idempotent_witness :
    ([] : List Job).find? (isActiveDup reqFixture) = none
    ∧ createJob "job-1" [] reqFixture = ("job-1", [mkNewJob "job-1" reqFixture])
    ∧ createJob "job-2" (createJob "job-1" [] reqFixture).2 reqFixture
        = ((createJob "job-1" [] reqFixture).1,
           (createJob "job-1" [] reqFixture).2) :=
  ⟨rfl, ((createJob_idempotent [] reqFixture "job-1" "job-2").1 rfl).1,
   (createJob_idempotent [] reqFixture "job-1" "job-2").2.2⟩

/-- C7 (witness): cancelling a one-row table of a fresh pending job, twice. -/
theorem cancelJob_idempotent_witness :
    (([mkNewJob "job-1" reqFixture].map Job.id)).Nodup
    ∧ cancelJob (cancelJob [mkNewJob "job-1" reqFixture] "job-1").1 "job-1"
        = ((cancelJob [mkNewJob "job-1" reqFixture] "job-1").1, false)
    ∧ ((cancelJob [mkNewJob "job-1" reqFixture] "job-1").2 = true ↔
        cancelMatchCount [mkNewJob "job-1" reqFixture] "job-1" = 1) :=
  ⟨by decide,
   (cancelJob_idempotent [mkNewJob "job-1" reqFixture] "job-1" (by decide)).1,
   (cancelJob_idempotent [mkNewJob "job-1" reqFixture] "job-1" (by decide)).2⟩

/-- A concrete rate-limit table: one in-window row for the user. -/
def rateTableFixture : List RateRow :=
  [⟨"alice", 95000⟩, ⟨"alice", 30000⟩, ⟨"bob", 99000⟩]

/-- C9 (witness): with limit 1 at `now = 100000` ms, the admission decision
matches the strict count comparison over the pruned window. -/
theorem checkRateLimit_spec_witness :
    (0 : Int) < 1
    ∧ ((checkRateLimit "alice" (some 1) 100000 rateTableFixture).1 = true ↔
        (((prunedTable "alice" 100000 rateTableFixture).filter
          (fun r => r.userId == "alice")).length : Int) < 1)
    ∧ ((checkRateLimit "alice" (some 1) 100000 rateTableFixture).1 = false →
        (checkRateLimit "alice" (some 1) 100000 rateTableFixture).2 =
          prunedTable "alice" 100000 rateTableFixture) :=
  ⟨by decide,
   ((checkRateLimit_spec "alice" (some 1) 100000 rateTableFixture).2.2
     1 rfl (by decide)).1,
   ((checkRateLimit_spec "alice" (some 1) 100000 rateTableFixture).2.2
     1 rfl (by decide)).2.2⟩

/-- A two-endpoint pool: the current endpoint is fresh, the other one is
already rate limited. -/
def haFixture : HAState :=
  { endpoints := [⟨"endpoint_1", none, 0⟩, ⟨"endpoint_2", some 200, 0⟩],
    currentEndpointIndex := 0 }

/-- C6 (witness): after three consecutive failures at `now = 100`, the first
endpoint carries `rate_limit_until = 190` and is not selectable at
`t = 150`. -/
theorem endpoint_selection_witness :
    haFixture.endpoints[haFixture.currentEndpointIndex]?
      = some ⟨"endpoint_1", none, 0⟩
    ∧ ∃ ep3,
        (handleApiError 100 (handleApiError 100 (handleApiError 100
          haFixture))).endpoints[haFixture.currentEndpointIndex]? = some ep3
        ∧ ep3.rateLimitUntil = some (100 + 90)
        ∧ ∀ t st4, t < 100 + 90 →
            selectNextAvailableEndpoint t
              (handleApiError 100 (handleApiError 100 (handleApiError 100
                haFixture))) = (st4, true) →
            st4.currentEndpointIndex ≠ haFixture.currentEndpointIndex :=
  ⟨by decide,
   (endpoint_selection_respects_cooldowns 100 haFixture).2
     ⟨"endpoint_1", none, 0⟩ (by decide) (by decide)⟩

/-- Markdown content whose single Mermaid block has an unmatched bracket. -/
def badDiagramContent : List Char :=
  "x\n```mermaid\ngraph TD\nA[x --> B\n```\ny".toList

/-- An LLM stub whose "fix" is itself invalid. -/
def stubbornOracle : String → String := fun _ => "still bad["

/-- C8 (witness): the invalid block of `badDiagramContent` costs exactly one
LLM round-trip and, the fix being invalid too, is replaced by the removal
notice. -/
theorem mermaid_validate_fix_witness :
    extractMermaidDiagrams badDiagramContent
      = [("graph TD\nA[x --> B".toList, 2, 35)]
    ∧ validateMermaid ("graph TD\nA[x --> B".toList)
      = some "Unmatched square brackets on line 2: \x27A[x --> B\x27"
    ∧ validateAndFixMermaidDiagrams stubbornOracle badDiagramContent
      = (spliceList badDiagramContent 2 35 removalNote, 1) :=
  ⟨by decide, by decide,
   (mermaid_validate_fix_spec stubbornOracle badDiagramContent).2.2
     ("graph TD\nA[x --> B".toList) 2 35
     "Unmatched square brackets on line 2: \x27A[x --> B\x27"
     (by decide) (by decide) (by decide)⟩

/-- Pages of a finished job: one completed, one permanently failed. -/
def cachePagesFixture : List JobPageView :=
  [{ pageId := "page-1", title := "Overview", content := some "# Overview",
     filePaths := ["README.md"], importance := "high", relatedPages := [],
     status := .completed },
   { pageId := "page-2", title := "Internals", content := none,
     filePaths := [], importance := "medium", relatedPages := [],
     status := .permanentFailed }]

/-- C10 (witness): no artifact for a `failed` job; for a `completed` job the
cache holds exactly the completed page. -/
theorem saveToWikiCache_witness :
    saveToWikiCache .failed cachePagesFixture = none
    ∧ (JobStatus.completed = .completed → ∃ cache,
        saveToWikiCache .completed cachePagesFixture = some cache
        ∧ cache.structurePages =
            (cachePagesFixture.filter
              (fun p => p.status == .completed)).map mkCachePage
        ∧ (∀ k, k ∈ cache.generatedPages.map Prod.fst ↔
            ∃ p ∈ cachePagesFixture, p.status = .completed ∧ p.pageId = k)
        ∧ (∀ kv ∈ cache.generatedPages, ∃ p ∈ cachePagesFixture,
            p.status = .completed ∧ kv = (p.pageId, mkCachePage p))) :=
  ⟨(saveToWikiCache_only_completed .failed cachePagesFixture).1 (by decide),
   (saveToWikiCache_only_completed .completed cachePagesFixture).2⟩

end DeepWiki
